import Mathlib

/-!
Verification of the GPT (GUID Partition Table) library of flatcar's GRUB
(`grub-core/lib/gpt.c`): a shallow embedding of the header codec, the
reader/validator, the repairer, the updater and the writer, together with
theorems about the validation, repair, update and write protocols.

Machine integers are modelled as `Nat` with explicit `% 2^32` / `% 2^64`
truncation at the operations where the C code can wrap.  The CRC-32
primitive is an external collaborator of the library, so it is abstracted
as two function parameters: `lecrc` (CRC over the serialized 92-byte
header struct) and `ecrc` (CRC over an entry-array byte buffer).
-/

namespace Gpt

/-- Diagnostic messages attached to GRUB errors.  Each constructor stands for
one of the literal message strings in `gpt.c`. -/
inductive GptMsg where
  /-- "invalid MBR signature" -/
  | invalidMbrSignature
  /-- "invalid protective MBR" -/
  | invalidProtectiveMbr
  /-- "invalid GPT signature" -/
  | invalidGptSignature
  /-- "unknown GPT version" -/
  | unknownGptVersion
  /-- "invalid GPT header crc32" -/
  | invalidHeaderCrc32
  /-- "invalid GPT header size" -/
  | invalidHeaderSize
  /-- "invalid GPT entry size" -/
  | invalidEntrySize
  /-- "invalid GPT entry table size" (header check) -/
  | invalidEntryTableSize
  /-- "invalid usable sectors" -/
  | invalidUsableSectors
  /-- "invalid primary GPT LBA" -/
  | invalidPrimaryGptLba
  /-- "invalid entries location" -/
  | invalidEntriesLocation
  /-- "invalid backup GPT LBA" -/
  | invalidBackupGptLba
  /-- "backup GPT out of sync" -/
  | backupOutOfSync
  /-- "backup GPT located at ..., beyond last disk sector at ..." -/
  | backupBeyondDisk
  /-- "size of disk unknown, cannot locate backup GPT" -/
  | diskSizeUnknown
  /-- "GPT sector size must match disk sector size" -/
  | sectorSizeMismatch
  /-- "No valid GPT" -/
  | noValidGpt
  /-- "No valid GPT header" -/
  | noValidGptHeader
  /-- "Generated invalid GPT primary header" -/
  | generatedInvalidPrimary
  /-- "Generated invalid GPT backup header" -/
  | generatedInvalidBackup
  /-- "invalid GPT entries table size" (entry-array read re-assertion) -/
  | invalidEntriesTableSize
  /-- "invalid GPT entry crc32" -/
  | invalidEntryCrc32
  /-- "Header size is %u, must be %u" -/
  | headerSizeMismatch
  /-- "Refusing to write GPT header to address 0x0" -/
  | refusingHeaderAddr0
  /-- "Refusing to write GPT entries to address 0x..." -/
  | refusingEntriesAddr
  /-- "Invalid GPT data" -/
  | invalidGptData
deriving DecidableEq, Repr

/-- GRUB error codes (`grub_err_t`) used by the GPT module. -/
inductive GrubErr where
  | none
  | badPartTable (msg : GptMsg)
  | badArgument (msg : GptMsg)
  | outOfRange (msg : GptMsg)
  | outOfMemory
  | notImplementedYet (msg : GptMsg)
  | bug (msg : GptMsg)
  /-- transparent pass-through error from the block device layer -/
  | io (code : Nat)
deriving DecidableEq, Repr

/-- `2^32`: modulus of 32-bit unsigned arithmetic. -/
def U32 : Nat := 2 ^ 32

/-- `2^64`: modulus of 64-bit unsigned arithmetic. -/
def U64 : Nat := 2 ^ 64

/-- 64-bit unsigned subtraction (wraps modulo `2^64`). -/
def u64sub (a b : Nat) : Nat := (a % U64 + U64 - b % U64) % U64

/-- 64-bit unsigned addition (wraps modulo `2^64`). -/
def u64add (a b : Nat) : Nat := (a + b) % U64

/-- `GRUB_GPT_HEADER_MAGIC`, the 8 bytes of the ASCII string EFI PART. -/
def GRUB_GPT_HEADER_MAGIC : List Nat := [0x45, 0x46, 0x49, 0x20, 0x50, 0x41, 0x52, 0x54]

/-- `GRUB_GPT_HEADER_VERSION` (0x00010000, stored little-endian). -/
def GRUB_GPT_HEADER_VERSION : Nat := 0x00010000

/-- `GRUB_GPT_DEFAULT_ENTRIES_SIZE`: minimum byte size of the entry array. -/
def GRUB_GPT_DEFAULT_ENTRIES_SIZE : Nat := 16384

/-- `struct grub_gpt_header` (fields in CPU order; all `grub_le_to_cpu`
conversions are identities in this model).  `start` and `end` are the
first-usable and last-usable LBAs; `partitions` is the entry-array LBA. -/
structure GptHeader where
  magic : List Nat
  version : Nat
  headersize : Nat
  crc32 : Nat
  unused1 : Nat
  header_lba : Nat
  alternate_lba : Nat
  start : Nat
  «end» : Nat
  guid : List Nat
  partitions : Nat
  maxpart : Nat
  partentry_size : Nat
  partentry_crc32 : Nat
deriving DecidableEq, Repr

/-- Modelled from the spec: `sizeof (struct grub_gpt_header)` — the native
header struct size.  The struct (declared in the repo's
`include/grub/gpt_partition.h`, not present under `src/`) packs
8+4+4+4+4+8+8+8+8+16+8+4+4+4 = 92 bytes, matching the spec's "92-byte"
native header. -/
def sizeof_gpt_header : Nat := 92

/-- Modelled from the spec: the protective MBR, reduced to the fields
`grub_gpt_pmbr_check` inspects — the 0xAA55 signature word and the
partition-type bytes of its entries. -/
structure Mbr where
  signature : Nat
  entry_types : List Nat
deriving DecidableEq, Repr

/-- Modelled from the spec: the GPT status bitmask
(`GRUB_GPT_PROTECTIVE_MBR`, `GRUB_GPT_PRIMARY_HEADER_VALID`,
`GRUB_GPT_PRIMARY_ENTRIES_VALID`, `GRUB_GPT_BACKUP_HEADER_VALID`,
`GRUB_GPT_BACKUP_ENTRIES_VALID` from the missing
`include/grub/gpt_partition.h`), modelled as five independent booleans. -/
structure GptStatus where
  protective_mbr : Bool
  primary_header_valid : Bool
  primary_entries_valid : Bool
  backup_header_valid : Bool
  backup_entries_valid : Bool
deriving DecidableEq, Repr

/-- `struct grub_gpt` — the GPT handle. -/
structure GptHandle where
  mbr : Mbr
  primary : GptHeader
  backup : GptHeader
  /-- the owned entry-array buffer, as bytes -/
  entries : List Nat
  entries_size : Nat
  log_sector_size : Nat
  status : GptStatus
deriving DecidableEq, Repr

/-- The block device, restricted to what `gpt.c` consumes: geometry plus
read/write at 512-byte-unit addresses.  `readHeaderAt` models
`grub_disk_read` of `sizeof (struct grub_gpt_header)` bytes plus
deserialization; `readBytes addr len` models `grub_disk_read` of `len`
bytes; `writeErr addr` gives the outcome of `grub_disk_write` at `addr`
(`Option.none` = success). -/
structure Disk where
  log_sector_size : Nat
  total_sectors : Nat
  readMbr : Except GrubErr Mbr
  readHeaderAt : Nat → Except GrubErr GptHeader
  readBytes : Nat → Nat → Except GrubErr (List Nat)
  writeErr : Nat → Option GrubErr

/-- Modelled from the spec: `grub_gpt_sector_to_addr` (declared in the missing
`include/grub/gpt_partition.h`).  GRUB disk addresses are in 512-byte units
and byte offsets are `sector × 2^log_sector_size`, so the address is the
sector shifted left by `log_sector_size − 9`, in 64-bit arithmetic. -/
def grub_gpt_sector_to_addr (gpt : GptHandle) (sector : Nat) : Nat :=
  (sector <<< (gpt.log_sector_size - 9)) % U64

/-- `grub_gpt_size_to_sectors`: bytes to sectors, rounding up. -/
def grub_gpt_size_to_sectors (gpt : GptHandle) (size : Nat) : Nat :=
  let sector_size := 2 ^ gpt.log_sector_size
  let sectors := size / sector_size
  if size % sector_size ≠ 0 then sectors + 1 else sectors

/-- `grub_gpt_disk_size_valid`: transform `total_sectors` to 512-byte blocks
(64-bit shift, which can wrap) and treat anything above `2^51` as unknown.
`GRUB_DISK_SECTOR_BITS` is 9. -/
def grub_gpt_disk_size_valid (disk : Disk) : Bool :=
  let total_sectors := (disk.total_sectors <<< (disk.log_sector_size - 9)) % U64
  decide (total_sectors ≤ 2 ^ 51)

/-- `grub_gpt_header_lecrc32`: CRC of the header with the `crc32` field
cleared (the abstract `lecrc` is the CRC of the serialized struct). -/
def grub_gpt_header_lecrc32 (lecrc : GptHeader → Nat) (header : GptHeader) : Nat :=
  lecrc { header with crc32 := 0 }

/-- `grub_gpt_pmbr_check`: the MBR must carry the 0xAA55 signature and at
least one GPT-protective (type 0xEE) entry. -/
def grub_gpt_pmbr_check (mbr : Mbr) : GrubErr :=
  if mbr.signature ≠ 0xAA55 then .badPartTable .invalidMbrSignature
  else if mbr.entry_types.any (fun t => t == 0xEE) then .none
  else .badPartTable .invalidProtectiveMbr

/-- `grub_gpt_entries_size`: `maxpart × partentry_size` as a 64-bit product
of two 32-bit values (cannot wrap). -/
def grub_gpt_entries_size (gpt : GptHeader) : Nat :=
  gpt.maxpart * gpt.partentry_size

/-- `grub_gpt_entries_sectors`: sectors occupied by the entry array
(`(entries_bytes + sector_bytes − 1) / sector_bytes` with a 64-bit sum). -/
def grub_gpt_entries_sectors (gpt : GptHeader) (log_sector_size : Nat) : Nat :=
  let sector_bytes := 2 ^ log_sector_size
  let entries_bytes := grub_gpt_entries_size gpt
  u64add entries_bytes (sector_bytes - 1) / sector_bytes

/-- `is_pow2`: `(n & (n − 1)) == 0`. -/
def is_pow2 (n : Nat) : Bool := n &&& (n - 1) == 0

/-- `grub_gpt_header_check`: generic validation of a candidate header. -/
def grub_gpt_header_check (lecrc : GptHeader → Nat) (gpt : GptHeader)
    (log_sector_size : Nat) : GrubErr :=
  if gpt.magic ≠ GRUB_GPT_HEADER_MAGIC then
    .badPartTable .invalidGptSignature
  else if gpt.version ≠ GRUB_GPT_HEADER_VERSION then
    .badPartTable .unknownGptVersion
  else if gpt.crc32 ≠ grub_gpt_header_lecrc32 lecrc gpt then
    .badPartTable .invalidHeaderCrc32
  else if gpt.headersize < 92 ∨ gpt.headersize > 2 ^ log_sector_size then
    .badPartTable .invalidHeaderSize
  else if gpt.partentry_size < 128 ∨ gpt.partentry_size % 128 ≠ 0 ∨
      ¬ is_pow2 (gpt.partentry_size / 128) then
    .badPartTable .invalidEntrySize
  else if grub_gpt_entries_size gpt < GRUB_GPT_DEFAULT_ENTRIES_SIZE then
    .badPartTable .invalidEntryTableSize
  else if gpt.start > gpt.«end» then
    .badPartTable .invalidUsableSectors
  else .none

/-- `grub_gpt_headers_equal`: mirror consistency between the two headers.
Magic and version are assumed checked; `crc32`, `header_lba`,
`alternate_lba` and `partitions` normally differ, so the location fields
are compared swapped and the rest field by field, ending with a `memcmp`
of the GUIDs. -/
def grub_gpt_headers_equal (gpt : GptHandle) : Bool :=
  gpt.primary.headersize == gpt.backup.headersize &&
  gpt.primary.header_lba == gpt.backup.alternate_lba &&
  gpt.primary.alternate_lba == gpt.backup.header_lba &&
  gpt.primary.start == gpt.backup.start &&
  gpt.primary.«end» == gpt.backup.«end» &&
  gpt.primary.maxpart == gpt.backup.maxpart &&
  gpt.primary.partentry_size == gpt.backup.partentry_size &&
  gpt.primary.partentry_crc32 == gpt.backup.partentry_crc32 &&
  gpt.primary.guid == gpt.backup.guid

/-- `grub_gpt_check_primary`: generic header check plus the primary-specific
layout conditions. -/
def grub_gpt_check_primary (lecrc : GptHeader → Nat) (gpt : GptHandle) : GrubErr :=
  let primary := gpt.primary.header_lba
  let backup := gpt.primary.alternate_lba
  let entries := gpt.primary.partitions
  let entries_len := grub_gpt_entries_sectors gpt.primary gpt.log_sector_size
  let start := gpt.primary.start
  let last := gpt.primary.«end»
  match grub_gpt_header_check lecrc gpt.primary gpt.log_sector_size with
  | .none =>
    if primary ≠ 1 then .badPartTable .invalidPrimaryGptLba
    else if entries ≤ 1 ∨ u64add entries entries_len > start then
      .badPartTable .invalidEntriesLocation
    else if backup ≤ last then .badPartTable .invalidBackupGptLba
    else .none
  | e => e

/-- `grub_gpt_check_backup`: generic header check plus the backup-specific
layout conditions, and — when the primary header has already validated —
the mirror-consistency requirement. -/
def grub_gpt_check_backup (lecrc : GptHeader → Nat) (gpt : GptHandle) : GrubErr :=
  let backup := gpt.backup.header_lba
  let primary := gpt.backup.alternate_lba
  let entries := gpt.backup.partitions
  let entries_len := grub_gpt_entries_sectors gpt.backup gpt.log_sector_size
  let last := gpt.backup.«end»
  match grub_gpt_header_check lecrc gpt.backup gpt.log_sector_size with
  | .none =>
    if primary ≠ 1 then .badPartTable .invalidPrimaryGptLba
    else if entries ≤ last ∨ u64add entries entries_len > backup then
      .badPartTable .invalidEntriesLocation
    else if backup ≤ last then .badPartTable .invalidBackupGptLba
    else if gpt.status.primary_header_valid ∧ ¬ grub_gpt_headers_equal gpt then
      .badPartTable .backupOutOfSync
    else .none
  | e => e

/-- `grub_gpt_read_entries`: compute `entries_size = maxpart × partentry_size`
(a 32-bit multiplication of the two `grub_uint32_t` fields, so the stored
product is truncated modulo `2^32`) with the manual inverse-division
overflow check, re-assert the minimum table size, read the array from
`partitions`, and verify its CRC. -/
def grub_gpt_read_entries (ecrc : List Nat → Nat) (disk : Disk) (gpt : GptHandle)
    (header : GptHeader) : Except GrubErr (List Nat × Nat) :=
  let count := header.maxpart
  let size := header.partentry_size
  let entries_size := count * size % U32
  if size ≠ 0 ∧ entries_size / size ≠ count then
    .error .outOfMemory
  else if entries_size < GRUB_GPT_DEFAULT_ENTRIES_SIZE then
    .error (.bug .invalidEntriesTableSize)
  else
    match disk.readBytes (grub_gpt_sector_to_addr gpt header.partitions) entries_size with
    | .error e => .error e
    | .ok entries =>
      if ecrc entries ≠ header.partentry_crc32 then
        .error (.badPartTable .invalidEntryCrc32)
      else .ok (entries, entries_size)

/-- `grub_gpt_read_primary`: capture the sector size, read the candidate
primary header from sector 1, validate it, then read its entry array. -/
def grub_gpt_read_primary (lecrc : GptHeader → Nat) (ecrc : List Nat → Nat)
    (disk : Disk) (gpt : GptHandle) : GptHandle × GrubErr :=
  let gpt := { gpt with log_sector_size := disk.log_sector_size }
  let addr := grub_gpt_sector_to_addr gpt 1
  match disk.readHeaderAt addr with
  | .error e => (gpt, e)
  | .ok hdr =>
    let gpt := { gpt with primary := hdr }
    match grub_gpt_check_primary lecrc gpt with
    | .none =>
      let gpt := { gpt with status := { gpt.status with primary_header_valid := true } }
      match grub_gpt_read_entries ecrc disk gpt gpt.primary with
      | .error e => (gpt, e)
      | .ok (entries, entries_size) =>
        ({ gpt with
            entries := entries
            entries_size := entries_size
            status := { gpt.status with primary_entries_valid := true } }, .none)
    | e => (gpt, e)

/-- The backup-sector determination at the top of `grub_gpt_read_backup`:
use the validated primary's `alternate_lba` (range-checked against the
medium when its size is known), else `total_sectors − 1` when the size is
known, else fail. -/
def grub_gpt_read_backup_sector (disk : Disk) (gpt : GptHandle) : Except GrubErr Nat :=
  if gpt.status.primary_header_valid then
    let sector := gpt.primary.alternate_lba
    if grub_gpt_disk_size_valid disk ∧ sector ≥ disk.total_sectors then
      .error (.outOfRange .backupBeyondDisk)
    else .ok sector
  else if grub_gpt_disk_size_valid disk then
    .ok (u64sub disk.total_sectors 1)
  else .error (.outOfRange .diskSizeUnknown)

/-- The remainder of `grub_gpt_read_backup` once the backup sector is
known: read the candidate backup header, validate it, require its
`header_lba` to match the sector it was read from, then read its entry
array — comparing it byte-for-byte against the owned buffer when the
primary entries already validated, installing it otherwise. -/
def grub_gpt_read_backup_at (lecrc : GptHeader → Nat) (ecrc : List Nat → Nat)
    (disk : Disk) (gpt : GptHandle) (sector : Nat) : GptHandle × GrubErr :=
  let addr := grub_gpt_sector_to_addr gpt sector
  match disk.readHeaderAt addr with
  | .error e => (gpt, e)
  | .ok hdr =>
    let gpt := { gpt with backup := hdr }
    match grub_gpt_check_backup lecrc gpt with
    | .none =>
      if gpt.backup.header_lba ≠ sector then
        (gpt, .badPartTable .invalidBackupGptLba)
      else
        let gpt := { gpt with status := { gpt.status with backup_header_valid := true } }
        match grub_gpt_read_entries ecrc disk gpt gpt.backup with
        | .error e => (gpt, e)
        | .ok (entries, entries_size) =>
          if gpt.status.primary_entries_valid then
            if entries_size ≠ gpt.entries_size ∨ entries ≠ gpt.entries then
              (gpt, .badPartTable .backupOutOfSync)
            else
              ({ gpt with status := { gpt.status with backup_entries_valid := true } }, .none)
          else
            ({ gpt with
                entries := entries
                entries_size := entries_size
                status := { gpt.status with backup_entries_valid := true } }, .none)
    | e => (gpt, e)

/-- `grub_gpt_read_backup`: locate the backup copy, then read and validate
it.  Assumes `gpt.log_sector_size = disk.log_sector_size`. -/
def grub_gpt_read_backup (lecrc : GptHeader → Nat) (ecrc : List Nat → Nat)
    (disk : Disk) (gpt : GptHandle) : GptHandle × GrubErr :=
  match grub_gpt_read_backup_sector disk gpt with
  | .error e => (gpt, e)
  | .ok sector => grub_gpt_read_backup_at lecrc ecrc disk gpt sector

/-- Modelled from the spec: `grub_gpt_primary_valid` (a macro of the missing
`include/grub/gpt_partition.h`) — both primary `_VALID` bits. -/
def grub_gpt_primary_valid (gpt : GptHandle) : Bool :=
  gpt.status.primary_header_valid && gpt.status.primary_entries_valid

/-- Modelled from the spec: `grub_gpt_backup_valid` — both backup `_VALID`
bits. -/
def grub_gpt_backup_valid (gpt : GptHandle) : Bool :=
  gpt.status.backup_header_valid && gpt.status.backup_entries_valid

/-- Modelled from the spec: `grub_gpt_both_valid` — all four `_VALID` bits. -/
def grub_gpt_both_valid (gpt : GptHandle) : Bool :=
  grub_gpt_primary_valid gpt && grub_gpt_backup_valid gpt

/-- The zeroed handle produced by `grub_zalloc` at the start of
`grub_gpt_read`. -/
def zeroHandle : GptHandle :=
  { mbr := { signature := 0, entry_types := [0, 0, 0, 0] }
    primary := { magic := [0, 0, 0, 0, 0, 0, 0, 0], version := 0, headersize := 0,
                 crc32 := 0, unused1 := 0, header_lba := 0, alternate_lba := 0,
                 start := 0, «end» := 0, guid := List.replicate 16 0, partitions := 0,
                 maxpart := 0, partentry_size := 0, partentry_crc32 := 0 }
    backup := { magic := [0, 0, 0, 0, 0, 0, 0, 0], version := 0, headersize := 0,
                crc32 := 0, unused1 := 0, header_lba := 0, alternate_lba := 0,
                start := 0, «end» := 0, guid := List.replicate 16 0, partitions := 0,
                maxpart := 0, partentry_size := 0, partentry_crc32 := 0 }
    entries := []
    entries_size := 0
    log_sector_size := 0
    status := { protective_mbr := false, primary_header_valid := false,
                primary_entries_valid := false, backup_header_valid := false,
                backup_entries_valid := false } }

/-- The prefix of `grub_gpt_read` before the primary is attempted: install
the MBR block and run the protective-MBR check, whose error is consumed
and reflected only in the `PROTECTIVE_MBR` status bit. -/
def grub_gpt_read_start (mbr : Mbr) : GptHandle :=
  let gpt := { zeroHandle with mbr := mbr }
  if grub_gpt_pmbr_check mbr = .none then
    { gpt with status := { gpt.status with protective_mbr := true } }
  else gpt

/-- `grub_gpt_read`: read the PMBR, attempt the primary copy, attempt the
backup copy (preserving the primary's error via push/pop when the primary
failed), and dispose: a live handle with `grub_errno` cleared if either
copy is fully valid, otherwise a freed handle and the primary's error. -/
def grub_gpt_read (lecrc : GptHeader → Nat) (ecrc : List Nat → Nat)
    (disk : Disk) : Option GptHandle × GrubErr :=
  match disk.readMbr with
  | .error e => (none, e)
  | .ok mbr =>
    let gpt := grub_gpt_read_start mbr
    let pr := grub_gpt_read_primary lecrc ecrc disk gpt
    let br :=
      if pr.2 ≠ .none then
        ((grub_gpt_read_backup lecrc ecrc disk pr.1).1, pr.2)
      else
        grub_gpt_read_backup lecrc ecrc disk pr.1
    if grub_gpt_primary_valid br.1 ∨ grub_gpt_backup_valid br.1 then (some br.1, .none)
    else (none, br.2)

/-- `grub_gpt_get_header`: the primary header if it validated, else the
backup header if it validated, else a `BUG` error. -/
def grub_gpt_get_header (gpt : GptHandle) : Except GrubErr GptHeader :=
  if gpt.status.primary_header_valid then .ok gpt.primary
  else if gpt.status.backup_header_valid then .ok gpt.backup
  else .error (.bug .noValidGptHeader)

/-- `grub_gpt_get_partentry`: a view into the owned entry buffer at offset
`partentry_size × n`, `none` past `maxpart` — paired with the error state
left by `grub_gpt_get_header`. -/
def grub_gpt_get_partentry (gpt : GptHandle) (n : Nat) : Option (List Nat) × GrubErr :=
  match grub_gpt_get_header gpt with
  | .error e => (none, e)
  | .ok header =>
    if n ≥ header.maxpart then (none, .none)
    else
      let offset := header.partentry_size * n
      (some ((gpt.entries.drop offset).take header.partentry_size), .none)

/-- The portion of `grub_gpt_disk_uuid` after `grub_gpt_read`: select the
authoritative header and render its disk GUID (`grub_gpt_guid_to_str` is
abstracted to the raw 16 GUID bytes). -/
def grub_gpt_disk_uuid_of (gpt : GptHandle) : Except GrubErr (List Nat) :=
  match grub_gpt_get_header gpt with
  | .error e => .error e
  | .ok header => .ok header.guid

/-- `grub_gpt_disk_uuid`: read the GPT, then render the disk GUID of the
authoritative header. -/
def grub_gpt_disk_uuid (lecrc : GptHeader → Nat) (ecrc : List Nat → Nat)
    (disk : Disk) : Except GrubErr (List Nat) :=
  match grub_gpt_read lecrc ecrc disk with
  | (some gpt, _) => grub_gpt_disk_uuid_of gpt
  | (none, e) => .error e

/-- The mutation prefix of `grub_gpt_update`: clear all four `_VALID` bits,
force both `headersize` fields to the native struct size, recompute the
entry-array CRC into both `partentry_crc32` fields, and recompute each
header's `crc32`. -/
def grub_gpt_update_prep (lecrc : GptHeader → Nat) (ecrc : List Nat → Nat)
    (gpt : GptHandle) : GptHandle :=
  let gpt := { gpt with status := { gpt.status with
    primary_header_valid := false, primary_entries_valid := false,
    backup_header_valid := false, backup_entries_valid := false } }
  let gpt := { gpt with
    primary := { gpt.primary with headersize := sizeof_gpt_header }
    backup := { gpt.backup with headersize := sizeof_gpt_header } }
  let crc := ecrc (gpt.entries.take gpt.entries_size)
  let gpt := { gpt with
    primary := { gpt.primary with partentry_crc32 := crc }
    backup := { gpt.backup with partentry_crc32 := crc } }
  let gpt := { gpt with primary :=
    { gpt.primary with crc32 := grub_gpt_header_lecrc32 lecrc gpt.primary } }
  { gpt with backup :=
    { gpt.backup with crc32 := grub_gpt_header_lecrc32 lecrc gpt.backup } }

/-- `grub_gpt_update`: re-establish CRCs, then re-validate both copies,
re-arming the status bits; an inconsistency here is a `BUG`. -/
def grub_gpt_update (lecrc : GptHeader → Nat) (ecrc : List Nat → Nat)
    (gpt : GptHandle) : GptHandle × GrubErr :=
  let gpt := grub_gpt_update_prep lecrc ecrc gpt
  match grub_gpt_check_primary lecrc gpt with
  | .none =>
    let gpt := { gpt with status := { gpt.status with
      primary_header_valid := true, primary_entries_valid := true } }
    match grub_gpt_check_backup lecrc gpt with
    | .none =>
      ({ gpt with status := { gpt.status with
         backup_header_valid := true, backup_entries_valid := true } }, .none)
    | _ => (gpt, .bug .generatedInvalidBackup)
  | _ => (gpt, .bug .generatedInvalidPrimary)

/-- `grub_gpt_repair`: reconstruct the missing copy from the surviving one
(relocating the backup to the end of a grown medium), then run the
updater. -/
def grub_gpt_repair (lecrc : GptHeader → Nat) (ecrc : List Nat → Nat)
    (disk : Disk) (gpt : GptHandle) : GptHandle × GrubErr :=
  if grub_gpt_both_valid gpt then (gpt, .none)
  else if disk.log_sector_size ≠ gpt.log_sector_size then
    (gpt, .notImplementedYet .sectorSizeMismatch)
  else if grub_gpt_primary_valid gpt then
    let backup_header := gpt.primary.alternate_lba
    let relocate := grub_gpt_disk_size_valid disk &&
      decide (u64sub disk.total_sectors 1 > backup_header)
    let backup_header := if relocate then u64sub disk.total_sectors 1 else backup_header
    let gpt :=
      if relocate then { gpt with primary := { gpt.primary with alternate_lba := backup_header } }
      else gpt
    let backup := { gpt.primary with
      header_lba := gpt.primary.alternate_lba
      alternate_lba := gpt.primary.header_lba
      partitions := u64sub backup_header (grub_gpt_size_to_sectors gpt gpt.entries_size) }
    grub_gpt_update lecrc ecrc { gpt with backup := backup }
  else if grub_gpt_backup_valid gpt then
    let primary := { gpt.backup with
      header_lba := gpt.backup.alternate_lba
      alternate_lba := gpt.backup.header_lba
      partitions := 2 }
    grub_gpt_update lecrc ecrc { gpt with primary := primary }
  else (gpt, .bug .noValidGpt)

/-- One write issued to the block device by the writer. -/
inductive WriteEvent where
  /-- `grub_disk_write` of a serialized header at a 512-byte-unit address -/
  | header (addr : Nat) (h : GptHeader)
  /-- `grub_disk_write` of the entry array at a 512-byte-unit address -/
  | entries (addr : Nat) (bytes : List Nat) (size : Nat)
deriving DecidableEq, Repr

/-- `grub_gpt_write_table`: write one copy — refuse non-native header sizes,
refuse header address 0, write the header, refuse entry addresses below 2,
write the entries.  Returns the error outcome together with the writes
issued to the device, in order. -/
def grub_gpt_write_table (disk : Disk) (gpt : GptHandle) (header : GptHeader) :
    GrubErr × List WriteEvent :=
  if header.headersize ≠ sizeof_gpt_header then
    (.notImplementedYet .headerSizeMismatch, [])
  else
    let addr := grub_gpt_sector_to_addr gpt header.header_lba
    if addr = 0 then (.bug .refusingHeaderAddr0, [])
    else
      let ev1 := WriteEvent.header addr header
      match disk.writeErr addr with
      | some e => (e, [ev1])
      | none =>
        let addr2 := grub_gpt_sector_to_addr gpt header.partitions
        if addr2 < 2 then (.bug .refusingEntriesAddr, [ev1])
        else
          let ev2 := WriteEvent.entries addr2 gpt.entries gpt.entries_size
          match disk.writeErr addr2 with
          | some e => (e, [ev1, ev2])
          | none => (.none, [ev1, ev2])

/-- `grub_gpt_write`: require all four `_VALID` bits; write the backup copy
first (skipping it with a warning when it lies beyond a known medium end),
then the primary — aborting before the primary if the backup failed. -/
def grub_gpt_write (disk : Disk) (gpt : GptHandle) : GrubErr × List WriteEvent :=
  if ¬ grub_gpt_both_valid gpt then (.badPartTable .invalidGptData, [])
  else
    let backup_header := gpt.backup.header_lba
    if grub_gpt_disk_size_valid disk ∧ backup_header ≥ disk.total_sectors then
      grub_gpt_write_table disk gpt gpt.primary
    else
      match grub_gpt_write_table disk gpt gpt.backup with
      | (.none, evs) =>
        let pr := grub_gpt_write_table disk gpt gpt.primary
        (pr.1, evs ++ pr.2)
      | (e, evs) => (e, evs)

/-! ## Concrete fixtures used by witnesses and counterexamples -/

/-- A trivial CRC model for headers: every serialized header hashes to 0. -/
def lecrc0 : GptHeader → Nat := fun _ => 0

/-- A trivial CRC model for entry buffers: every buffer hashes to 0. -/
def ecrc0 : List Nat → Nat := fun _ => 0

/-- A well-formed primary header for a 2048-sector, 512-byte-sector medium
(its CRC fields are consistent with `lecrc0`/`ecrc0`). -/
def goodPrimary : GptHeader :=
  { magic := GRUB_GPT_HEADER_MAGIC
    version := GRUB_GPT_HEADER_VERSION
    headersize := 92
    crc32 := 0
    unused1 := 0
    header_lba := 1
    alternate_lba := 2047
    start := 34
    «end» := 2014
    guid := List.replicate 16 0
    partitions := 2
    maxpart := 128
    partentry_size := 128
    partentry_crc32 := 0 }

/-- The mirror-consistent backup of `goodPrimary`. -/
def goodBackup : GptHeader :=
  { goodPrimary with header_lba := 2047, alternate_lba := 1, partitions := 2015 }

/-- A benign disk: 4096 sectors of 512 bytes, all writes succeed, reads
fail (the write-path fixtures never read). -/
def wdisk : Disk :=
  { log_sector_size := 9
    total_sectors := 4096
    readMbr := .error (.io 0)
    readHeaderAt := fun _ => .error (.io 0)
    readBytes := fun _ _ => .error (.io 0)
    writeErr := fun _ => none }

/-- A fully-valid handle over `goodPrimary`/`goodBackup` with an empty
entry buffer (its CRCs are consistent with `ecrc0`). -/
def whandle : GptHandle :=
  { mbr := { signature := 0xAA55, entry_types := [0xEE, 0, 0, 0] }
    primary := goodPrimary
    backup := goodBackup
    entries := []
    entries_size := 0
    log_sector_size := 9
    status := { protective_mbr := true, primary_header_valid := true,
                primary_entries_valid := true, backup_header_valid := true,
                backup_entries_valid := true } }

/-- A handle whose primary side re-validates under `lecrc0`/`ecrc0` but
whose backup header is garbage (all zeroes), so `grub_gpt_update` fails at
the backup re-validation. -/
def uhandle : GptHandle :=
  { mbr := { signature := 0xAA55, entry_types := [0xEE, 0, 0, 0] }
    primary := goodPrimary
    backup := zeroHandle.backup
    entries := []
    entries_size := 0
    log_sector_size := 9
    status := { protective_mbr := true, primary_header_valid := true,
                primary_entries_valid := true, backup_header_valid := true,
                backup_entries_valid := true } }

/-- A handle whose primary header has drifted from the (individually valid)
backup: `first_usable` differs, so mirror consistency fails. -/
def desyncHandle : GptHandle :=
  { whandle with primary := { goodPrimary with start := 33 } }

/-- A disk whose header reads return `goodBackup` and whose byte reads
return zero-filled buffers. -/
def bdisk : Disk :=
  { wdisk with
    readHeaderAt := fun _ => .ok goodBackup
    readBytes := fun _ n => .ok (List.replicate n 0) }

/-- A handle with only `PRIMARY_ENTRIES_VALID` set and an owned entry
buffer that differs from what the backup's entry array will read back. -/
def pehandle : GptHandle :=
  { zeroHandle with
    log_sector_size := 9
    entries := [1]
    entries_size := 1
    status := { protective_mbr := false, primary_header_valid := false,
                primary_entries_valid := true, backup_header_valid := false,
                backup_entries_valid := false } }

/-- A medium whose 64-bit shift to 512-byte blocks wraps to zero:
`2^60` sectors of `2^13` bytes. -/
def cdisk : Disk :=
  { log_sector_size := 13
    total_sectors := 2 ^ 60
    readMbr := .error (.io 0)
    readHeaderAt := fun _ => .ok zeroHandle.backup
    readBytes := fun _ _ => .error (.io 0)
    writeErr := fun _ => none }

/-- A handle (matching `cdisk`'s sector size) whose primary did not
validate. -/
def c7handle : GptHandle := { zeroHandle with log_sector_size := 13 }

/-- A handle whose primary copy is valid and whose backup bits are clear,
as left by a read that rejected the backup — input to repair. -/
def rhandle : GptHandle :=
  { whandle with status := { whandle.status with
      backup_header_valid := false, backup_entries_valid := false } }

/-! ## Helper lemmas -/

/-- Any power of two passes the `(n & (n − 1)) == 0` test. -/
lemma is_pow2_two_pow (k : Nat) : is_pow2 (2 ^ k) = true := by
  unfold is_pow2
  rw [beq_iff_eq]
  apply Nat.zero_of_testBit_eq_false
  intro i
  rw [Nat.testBit_land, Nat.testBit_two_pow, Nat.testBit_two_pow_sub_one]
  by_cases h : k = i
  · subst h
    simp
  · simp [h]

/-- A positive number passing the `(n & (n − 1)) == 0` test is a power of
two. -/
lemma exists_pow_of_is_pow2 {n : Nat} (hn : 1 ≤ n) (h : is_pow2 n = true) :
    ∃ k, n = 2 ^ k := by
  unfold is_pow2 at h
  rw [beq_iff_eq] at h
  refine ⟨Nat.log 2 n, ?_⟩
  have h1 : 2 ^ Nat.log 2 n ≤ n := Nat.pow_log_le_self 2 (by omega)
  have h2 : n < 2 ^ (Nat.log 2 n + 1) := Nat.lt_pow_succ_log_self (by norm_num) n
  by_contra hne
  have hgt : 2 ^ Nat.log 2 n < n := lt_of_le_of_ne h1 (fun he => hne he.symm)
  have hb1 : n.testBit (Nat.log 2 n) = true := by
    rw [Nat.testBit_to_div_mod]
    have hd : n / 2 ^ Nat.log 2 n = 1 := by
      apply Nat.div_eq_of_lt_le
      · simpa using h1
      · simpa [Nat.pow_succ, Nat.mul_comm] using h2
    simp [hd]
  have hb2 : (n - 1).testBit (Nat.log 2 n) = true := by
    rw [Nat.testBit_to_div_mod]
    have hd : (n - 1) / 2 ^ Nat.log 2 n = 1 := by
      apply Nat.div_eq_of_lt_le
      · simp only [Nat.one_mul]
        omega
      · have : n - 1 < 2 ^ (Nat.log 2 n + 1) := by omega
        simpa [Nat.pow_succ, Nat.mul_comm] using this
    simp [hd]
  have : (n &&& (n - 1)).testBit (Nat.log 2 n) = false := by
    rw [h]
    exact Nat.zero_testBit _
  rw [Nat.testBit_land, hb1, hb2] at this
  simp at this

/-- `grub_gpt_read_entries` never reports success as an error: on a device
whose read failures carry a non-`GRUB_ERR_NONE` code, its error is never
`GRUB_ERR_NONE`. -/
lemma read_entries_ne_error_none (ecrc : List Nat → Nat) (disk : Disk)
    (gpt : GptHandle) (header : GptHeader)
    (hwf2 : ∀ a n, disk.readBytes a n ≠ .error .none) :
    grub_gpt_read_entries ecrc disk gpt header ≠ .error .none := by
  unfold grub_gpt_read_entries
  intro h
  dsimp only [] at h
  split at h
  · simp at h
  · split at h
    · simp at h
    · split at h
      · next e heq =>
        simp only [Except.error.injEq] at h
        rw [h] at heq
        exact absurd heq (hwf2 _ _)
      · split at h <;> simp at h

/-- When `grub_gpt_read_primary` returns `GRUB_ERR_NONE` (on a device whose
failures carry real error codes), both primary `_VALID` bits are set. -/
lemma read_primary_valid_of_ok (lecrc : GptHeader → Nat) (ecrc : List Nat → Nat)
    (disk : Disk) (gpt : GptHandle)
    (hwf1 : ∀ a, disk.readHeaderAt a ≠ .error .none)
    (hwf2 : ∀ a n, disk.readBytes a n ≠ .error .none)
    (h : (grub_gpt_read_primary lecrc ecrc disk gpt).2 = .none) :
    grub_gpt_primary_valid (grub_gpt_read_primary lecrc ecrc disk gpt).1 = true := by
  unfold grub_gpt_read_primary at h ⊢
  dsimp only [] at h ⊢
  split at h
  · rename_i e heq
    dsimp only [] at h
    subst h
    exact absurd heq (hwf1 _)
  · rename_i hdr heq
    split at h
    · rename_i hc
      split at h
      · rename_i e heq2
        dsimp only [] at h
        subst h
        exact absurd heq2 (read_entries_ne_error_none _ _ _ _ hwf2)
      · rename_i entries es heq2
        rfl
    · rename_i e hne
      dsimp only [] at h
      exact absurd h hne

/-- `grub_gpt_read_backup` never clears the primary `_VALID` bits. -/
lemma read_backup_preserves_primary (lecrc : GptHeader → Nat) (ecrc : List Nat → Nat)
    (disk : Disk) (gpt : GptHandle) :
    (grub_gpt_read_backup lecrc ecrc disk gpt).1.status.primary_header_valid =
      gpt.status.primary_header_valid ∧
    (grub_gpt_read_backup lecrc ecrc disk gpt).1.status.primary_entries_valid =
      gpt.status.primary_entries_valid := by
  unfold grub_gpt_read_backup grub_gpt_read_backup_at
  dsimp only []
  repeat' split
  all_goals exact ⟨rfl, rfl⟩

/-- `grub_gpt_size_to_sectors` is ceiling division by the sector size. -/
lemma size_to_sectors_eq_ceil (gpt : GptHandle) (size : Nat) :
    grub_gpt_size_to_sectors gpt size =
      (size + 2 ^ gpt.log_sector_size - 1) / 2 ^ gpt.log_sector_size := by
  unfold grub_gpt_size_to_sectors
  dsimp only []
  have hss : 0 < 2 ^ gpt.log_sector_size := Nat.pow_pos (by norm_num)
  have hdm := Nat.div_add_mod size (2 ^ gpt.log_sector_size)
  have hmlt : size % 2 ^ gpt.log_sector_size < 2 ^ gpt.log_sector_size :=
    Nat.mod_lt _ hss
  split
  · rename_i hmod
    have h1 : size + 2 ^ gpt.log_sector_size - 1 =
        2 ^ gpt.log_sector_size * (size / 2 ^ gpt.log_sector_size) +
          (size % 2 ^ gpt.log_sector_size + 2 ^ gpt.log_sector_size - 1) := by
      omega
    rw [h1, Nat.mul_add_div hss]
    have h2 : (size % 2 ^ gpt.log_sector_size + 2 ^ gpt.log_sector_size - 1) /
        2 ^ gpt.log_sector_size = 1 := by
      apply Nat.div_eq_of_lt_le
      · omega
      · omega
    rw [h2]
  · rename_i hmod
    have hz : size % 2 ^ gpt.log_sector_size = 0 := by
      by_contra hne
      exact hmod hne
    have h1 : size + 2 ^ gpt.log_sector_size - 1 =
        2 ^ gpt.log_sector_size * (size / 2 ^ gpt.log_sector_size) +
          (2 ^ gpt.log_sector_size - 1) := by
      omega
    rw [h1, Nat.mul_add_div hss,
        Nat.div_eq_of_lt (show 2 ^ gpt.log_sector_size - 1 < 2 ^ gpt.log_sector_size by omega),
        Nat.add_zero]

/-- 64-bit subtraction agrees with `Nat` subtraction when it cannot wrap. -/
lemma u64sub_eq (a b : Nat) (hb : b ≤ a) (ha : a < U64) : u64sub a b = a - b := by
  unfold u64sub
  rw [Nat.mod_eq_of_lt ha, Nat.mod_eq_of_lt (lt_of_le_of_lt hb ha)]
  have h1 : a + U64 - b = U64 + (a - b) := by omega
  rw [h1, Nat.add_mod_left, Nat.mod_eq_of_lt (by omega)]

/-- `grub_gpt_update` only recomputes CRC-related fields and status bits:
the primary header of the result is the prepared one. -/
lemma update_fst_primary (lecrc : GptHeader → Nat) (ecrc : List Nat → Nat)
    (g : GptHandle) :
    (grub_gpt_update lecrc ecrc g).1.primary =
      (grub_gpt_update_prep lecrc ecrc g).primary := by
  unfold grub_gpt_update
  dsimp only []
  repeat' split
  all_goals rfl

/-- `grub_gpt_update` only recomputes CRC-related fields and status bits:
the backup header of the result is the prepared one. -/
lemma update_fst_backup (lecrc : GptHeader → Nat) (ecrc : List Nat → Nat)
    (g : GptHandle) :
    (grub_gpt_update lecrc ecrc g).1.backup =
      (grub_gpt_update_prep lecrc ecrc g).backup := by
  unfold grub_gpt_update
  dsimp only []
  repeat' split
  all_goals rfl

/-! ## Claims -/

/-- Claim C1: for every handle on which repair runs (not both copies valid,
sector sizes matching, and with the arithmetic in range so that the 64-bit
subtractions do not wrap): if the primary copy is valid, repair relocates
the backup header to `total_sectors − 1` whenever the medium size is known
and `total_sectors − 1 > primary.alternate_lba` (updating
`primary.alternate_lba`), copies the primary header over the backup, and
sets `backup.header_lba = primary.alternate_lba`,
`backup.alternate_lba = primary.header_lba`, and
`backup.partitions_lba = backup_header − ceil(entries_size / sector_size)`;
if instead only the backup is valid, repair copies the backup over the
primary and sets `primary.header_lba = backup.alternate_lba`,
`primary.alternate_lba = backup.header_lba`, and
`primary.partitions_lba = 2`. -/
theorem claim_C1 (lecrc : GptHeader → Nat) (ecrc : List Nat → Nat)
    (disk : Disk) (gpt : GptHandle)
    (hnb : grub_gpt_both_valid gpt = false)
    (hss : disk.log_sector_size = gpt.log_sector_size)
    (hts1 : 1 ≤ disk.total_sectors) (hts2 : disk.total_sectors < U64)
    (halt : gpt.primary.alternate_lba < U64)
    (hsec : (gpt.entries_size + 2 ^ gpt.log_sector_size - 1) / 2 ^ gpt.log_sector_size ≤
      (if grub_gpt_disk_size_valid disk = true ∧
          disk.total_sectors - 1 > gpt.primary.alternate_lba
       then disk.total_sectors - 1 else gpt.primary.alternate_lba)) :
    (grub_gpt_primary_valid gpt = true →
      (grub_gpt_repair lecrc ecrc disk gpt).1.primary.alternate_lba =
        (if grub_gpt_disk_size_valid disk = true ∧
            disk.total_sectors - 1 > gpt.primary.alternate_lba
         then disk.total_sectors - 1 else gpt.primary.alternate_lba) ∧
      (grub_gpt_repair lecrc ecrc disk gpt).1.backup.header_lba =
        (grub_gpt_repair lecrc ecrc disk gpt).1.primary.alternate_lba ∧
      (grub_gpt_repair lecrc ecrc disk gpt).1.backup.alternate_lba =
        (grub_gpt_repair lecrc ecrc disk gpt).1.primary.header_lba ∧
      (grub_gpt_repair lecrc ecrc disk gpt).1.backup.partitions =
        (if grub_gpt_disk_size_valid disk = true ∧
            disk.total_sectors - 1 > gpt.primary.alternate_lba
         then disk.total_sectors - 1 else gpt.primary.alternate_lba) -
        (gpt.entries_size + 2 ^ gpt.log_sector_size - 1) / 2 ^ gpt.log_sector_size ∧
      ((grub_gpt_repair lecrc ecrc disk gpt).1.backup.magic =
        (grub_gpt_repair lecrc ecrc disk gpt).1.primary.magic ∧
       (grub_gpt_repair lecrc ecrc disk gpt).1.backup.version =
        (grub_gpt_repair lecrc ecrc disk gpt).1.primary.version ∧
       (grub_gpt_repair lecrc ecrc disk gpt).1.backup.headersize =
        (grub_gpt_repair lecrc ecrc disk gpt).1.primary.headersize ∧
       (grub_gpt_repair lecrc ecrc disk gpt).1.backup.start =
        (grub_gpt_repair lecrc ecrc disk gpt).1.primary.start ∧
       (grub_gpt_repair lecrc ecrc disk gpt).1.backup.«end» =
        (grub_gpt_repair lecrc ecrc disk gpt).1.primary.«end» ∧
       (grub_gpt_repair lecrc ecrc disk gpt).1.backup.guid =
        (grub_gpt_repair lecrc ecrc disk gpt).1.primary.guid ∧
       (grub_gpt_repair lecrc ecrc disk gpt).1.backup.maxpart =
        (grub_gpt_repair lecrc ecrc disk gpt).1.primary.maxpart ∧
       (grub_gpt_repair lecrc ecrc disk gpt).1.backup.partentry_size =
        (grub_gpt_repair lecrc ecrc disk gpt).1.primary.partentry_size ∧
       (grub_gpt_repair lecrc ecrc disk gpt).1.backup.partentry_crc32 =
        (grub_gpt_repair lecrc ecrc disk gpt).1.primary.partentry_crc32)) ∧
    (grub_gpt_primary_valid gpt = false → grub_gpt_backup_valid gpt = true →
      (grub_gpt_repair lecrc ecrc disk gpt).1.primary.header_lba =
        gpt.backup.alternate_lba ∧
      (grub_gpt_repair lecrc ecrc disk gpt).1.primary.alternate_lba =
        gpt.backup.header_lba ∧
      (grub_gpt_repair lecrc ecrc disk gpt).1.primary.partitions = 2 ∧
      ((grub_gpt_repair lecrc ecrc disk gpt).1.primary.magic = gpt.backup.magic ∧
       (grub_gpt_repair lecrc ecrc disk gpt).1.primary.version = gpt.backup.version ∧
       (grub_gpt_repair lecrc ecrc disk gpt).1.primary.start = gpt.backup.start ∧
       (grub_gpt_repair lecrc ecrc disk gpt).1.primary.«end» = gpt.backup.«end» ∧
       (grub_gpt_repair lecrc ecrc disk gpt).1.primary.guid = gpt.backup.guid ∧
       (grub_gpt_repair lecrc ecrc disk gpt).1.primary.maxpart = gpt.backup.maxpart ∧
       (grub_gpt_repair lecrc ecrc disk gpt).1.primary.partentry_size =
        gpt.backup.partentry_size ∧
       (grub_gpt_repair lecrc ecrc disk gpt).1.primary.headersize =
        (grub_gpt_repair lecrc ecrc disk gpt).1.backup.headersize ∧
       (grub_gpt_repair lecrc ecrc disk gpt).1.primary.partentry_crc32 =
        (grub_gpt_repair lecrc ecrc disk gpt).1.backup.partentry_crc32)) := by
  constructor
  · intro hpv
    simp only [grub_gpt_repair]
    rw [if_neg (show ¬ (grub_gpt_both_valid gpt = true) by simp [hnb]),
        if_neg (show ¬ (disk.log_sector_size ≠ gpt.log_sector_size) from not_not_intro hss),
        if_pos hpv]
    by_cases hrel : grub_gpt_disk_size_valid disk = true ∧
        disk.total_sectors - 1 > gpt.primary.alternate_lba
    · have hrelb : (grub_gpt_disk_size_valid disk &&
          decide (disk.total_sectors - 1 > gpt.primary.alternate_lba)) = true := by
        simp [hrel.1, hrel.2]
      have hsec2 : (gpt.entries_size + 2 ^ gpt.log_sector_size - 1) /
          2 ^ gpt.log_sector_size ≤ disk.total_sectors - 1 := by
        rw [if_pos hrel] at hsec
        exact hsec
      rw [if_pos hrel]
      simp only [u64sub_eq disk.total_sectors 1 hts1 hts2]
      simp [hrelb, update_fst_primary, update_fst_backup, grub_gpt_update_prep]
      rw [size_to_sectors_eq_ceil]
      exact u64sub_eq _ _ hsec2 (by omega)
    · have hrelb : (grub_gpt_disk_size_valid disk &&
          decide (disk.total_sectors - 1 > gpt.primary.alternate_lba)) = false := by
        by_cases hb : grub_gpt_disk_size_valid disk = true
        · have h2 : ¬ (disk.total_sectors - 1 > gpt.primary.alternate_lba) :=
            fun hgt => hrel ⟨hb, hgt⟩
          simp [hb, h2]
        · rw [Bool.not_eq_true] at hb
          simp [hb]
      have hsec2 : (gpt.entries_size + 2 ^ gpt.log_sector_size - 1) /
          2 ^ gpt.log_sector_size ≤ gpt.primary.alternate_lba := by
        rw [if_neg hrel] at hsec
        exact hsec
      rw [if_neg hrel]
      simp only [u64sub_eq disk.total_sectors 1 hts1 hts2]
      simp [hrelb, update_fst_primary, update_fst_backup, grub_gpt_update_prep]
      rw [size_to_sectors_eq_ceil]
      exact u64sub_eq _ _ hsec2 halt
  · intro hpv hbv
    simp only [grub_gpt_repair]
    rw [if_neg (show ¬ (grub_gpt_both_valid gpt = true) by simp [hnb]),
        if_neg (show ¬ (disk.log_sector_size ≠ gpt.log_sector_size) from not_not_intro hss),
        if_neg (show ¬ (grub_gpt_primary_valid gpt = true) by simp [hpv]),
        if_pos hbv]
    simp only [update_fst_primary, update_fst_backup, grub_gpt_update_prep]
    repeat' apply And.intro
    all_goals trivial

/-- Witness for C1 on the fixture: the medium has grown to 4096 sectors, so
repair relocates the backup header to sector 4095, rewires the mirror
fields, and places the backup entry array right below the backup header. -/
theorem claim_C1_witness :
    (grub_gpt_repair lecrc0 ecrc0 wdisk rhandle).1.primary.alternate_lba =
      (if grub_gpt_disk_size_valid wdisk = true ∧
          wdisk.total_sectors - 1 > rhandle.primary.alternate_lba
       then wdisk.total_sectors - 1 else rhandle.primary.alternate_lba) ∧
    (grub_gpt_repair lecrc0 ecrc0 wdisk rhandle).1.backup.header_lba =
      (grub_gpt_repair lecrc0 ecrc0 wdisk rhandle).1.primary.alternate_lba ∧
    (grub_gpt_repair lecrc0 ecrc0 wdisk rhandle).1.backup.alternate_lba =
      (grub_gpt_repair lecrc0 ecrc0 wdisk rhandle).1.primary.header_lba ∧
    (grub_gpt_repair lecrc0 ecrc0 wdisk rhandle).1.backup.partitions =
      (if grub_gpt_disk_size_valid wdisk = true ∧
          wdisk.total_sectors - 1 > rhandle.primary.alternate_lba
       then wdisk.total_sectors - 1 else rhandle.primary.alternate_lba) -
      (rhandle.entries_size + 2 ^ rhandle.log_sector_size - 1) /
        2 ^ rhandle.log_sector_size := by
  have h := (claim_C1 lecrc0 ecrc0 wdisk rhandle (by decide) rfl (by decide) (by decide)
    (by decide) (by decide)).1 (by decide)
  exact ⟨h.1, h.2.1, h.2.2.1, h.2.2.2.1⟩

/-- Claim C2: for every candidate header and `log_sector_size`,
`grub_gpt_header_check` fails with `BAD_PART_TABLE` if and only if at
least one of these holds: magic differs from EFI PART; version differs
from 0x00010000; the CRC-32 computed over the header with the `crc32`
field zeroed differs from the stored `crc32`; `headersize < 92` or
`headersize > 2^log_sector_size`; `partentry_size < 128`, or not a
multiple of 128, or `partentry_size / 128` not a power of two;
`maxpart × partentry_size < 16384`; `first_usable > last_usable`.
Otherwise it succeeds. -/
theorem claim_C2 (lecrc : GptHeader → Nat) (gpt : GptHeader) (lss : Nat) :
    ((∃ m, grub_gpt_header_check lecrc gpt lss = .badPartTable m) ↔
      (gpt.magic ≠ GRUB_GPT_HEADER_MAGIC ∨ gpt.version ≠ GRUB_GPT_HEADER_VERSION ∨
       gpt.crc32 ≠ lecrc { gpt with crc32 := 0 } ∨
       gpt.headersize < 92 ∨ gpt.headersize > 2 ^ lss ∨
       gpt.partentry_size < 128 ∨ gpt.partentry_size % 128 ≠ 0 ∨
       (¬ ∃ k, gpt.partentry_size / 128 = 2 ^ k) ∨
       gpt.maxpart * gpt.partentry_size < 16384 ∨
       gpt.start > gpt.«end»)) ∧
    (grub_gpt_header_check lecrc gpt lss = .none ↔
      ¬ (gpt.magic ≠ GRUB_GPT_HEADER_MAGIC ∨ gpt.version ≠ GRUB_GPT_HEADER_VERSION ∨
       gpt.crc32 ≠ lecrc { gpt with crc32 := 0 } ∨
       gpt.headersize < 92 ∨ gpt.headersize > 2 ^ lss ∨
       gpt.partentry_size < 128 ∨ gpt.partentry_size % 128 ≠ 0 ∨
       (¬ ∃ k, gpt.partentry_size / 128 = 2 ^ k) ∨
       gpt.maxpart * gpt.partentry_size < 16384 ∨
       gpt.start > gpt.«end»)) := by
  unfold grub_gpt_header_check
  split_ifs with h1 h2 h3 h4 h5 h6 h7
  · have hC : gpt.magic ≠ GRUB_GPT_HEADER_MAGIC ∨ gpt.version ≠ GRUB_GPT_HEADER_VERSION ∨
       gpt.crc32 ≠ lecrc { gpt with crc32 := 0 } ∨
       gpt.headersize < 92 ∨ gpt.headersize > 2 ^ lss ∨
       gpt.partentry_size < 128 ∨ gpt.partentry_size % 128 ≠ 0 ∨
       (¬ ∃ k, gpt.partentry_size / 128 = 2 ^ k) ∨
       gpt.maxpart * gpt.partentry_size < 16384 ∨
       gpt.start > gpt.«end» := Or.inl h1
    exact ⟨Iff.intro (fun _ => hC) (fun _ => ⟨_, rfl⟩),
      iff_of_false (by simp) (fun hn => hn hC)⟩
  · have hC : gpt.magic ≠ GRUB_GPT_HEADER_MAGIC ∨ gpt.version ≠ GRUB_GPT_HEADER_VERSION ∨
       gpt.crc32 ≠ lecrc { gpt with crc32 := 0 } ∨
       gpt.headersize < 92 ∨ gpt.headersize > 2 ^ lss ∨
       gpt.partentry_size < 128 ∨ gpt.partentry_size % 128 ≠ 0 ∨
       (¬ ∃ k, gpt.partentry_size / 128 = 2 ^ k) ∨
       gpt.maxpart * gpt.partentry_size < 16384 ∨
       gpt.start > gpt.«end» := Or.inr (Or.inl h2)
    exact ⟨Iff.intro (fun _ => hC) (fun _ => ⟨_, rfl⟩),
      iff_of_false (by simp) (fun hn => hn hC)⟩
  · have hC : gpt.magic ≠ GRUB_GPT_HEADER_MAGIC ∨ gpt.version ≠ GRUB_GPT_HEADER_VERSION ∨
       gpt.crc32 ≠ lecrc { gpt with crc32 := 0 } ∨
       gpt.headersize < 92 ∨ gpt.headersize > 2 ^ lss ∨
       gpt.partentry_size < 128 ∨ gpt.partentry_size % 128 ≠ 0 ∨
       (¬ ∃ k, gpt.partentry_size / 128 = 2 ^ k) ∨
       gpt.maxpart * gpt.partentry_size < 16384 ∨
       gpt.start > gpt.«end» := by
      refine Or.inr (Or.inr (Or.inl ?_))
      simpa [grub_gpt_header_lecrc32] using h3
    exact ⟨Iff.intro (fun _ => hC) (fun _ => ⟨_, rfl⟩),
      iff_of_false (by simp) (fun hn => hn hC)⟩
  · have hC : gpt.magic ≠ GRUB_GPT_HEADER_MAGIC ∨ gpt.version ≠ GRUB_GPT_HEADER_VERSION ∨
       gpt.crc32 ≠ lecrc { gpt with crc32 := 0 } ∨
       gpt.headersize < 92 ∨ gpt.headersize > 2 ^ lss ∨
       gpt.partentry_size < 128 ∨ gpt.partentry_size % 128 ≠ 0 ∨
       (¬ ∃ k, gpt.partentry_size / 128 = 2 ^ k) ∨
       gpt.maxpart * gpt.partentry_size < 16384 ∨
       gpt.start > gpt.«end» := by
      rcases h4 with h | h
      · exact Or.inr (Or.inr (Or.inr (Or.inl h)))
      · exact Or.inr (Or.inr (Or.inr (Or.inr (Or.inl h))))
    exact ⟨Iff.intro (fun _ => hC) (fun _ => ⟨_, rfl⟩),
      iff_of_false (by simp) (fun hn => hn hC)⟩
  · have hC : gpt.magic ≠ GRUB_GPT_HEADER_MAGIC ∨ gpt.version ≠ GRUB_GPT_HEADER_VERSION ∨
       gpt.crc32 ≠ lecrc { gpt with crc32 := 0 } ∨
       gpt.headersize < 92 ∨ gpt.headersize > 2 ^ lss ∨
       gpt.partentry_size < 128 ∨ gpt.partentry_size % 128 ≠ 0 ∨
       (¬ ∃ k, gpt.partentry_size / 128 = 2 ^ k) ∨
       gpt.maxpart * gpt.partentry_size < 16384 ∨
       gpt.start > gpt.«end» := by
      rcases h5 with h | h | h
      · exact Or.inr (Or.inr (Or.inr (Or.inr (Or.inr (Or.inl h)))))
      · exact Or.inr (Or.inr (Or.inr (Or.inr (Or.inr (Or.inr (Or.inl h))))))
      · refine Or.inr (Or.inr (Or.inr (Or.inr (Or.inr (Or.inr (Or.inr (Or.inl ?_)))))))
        rintro ⟨k, hk⟩
        exact h (hk ▸ is_pow2_two_pow k)
    exact ⟨Iff.intro (fun _ => hC) (fun _ => ⟨_, rfl⟩),
      iff_of_false (by simp) (fun hn => hn hC)⟩
  · have hC : gpt.magic ≠ GRUB_GPT_HEADER_MAGIC ∨ gpt.version ≠ GRUB_GPT_HEADER_VERSION ∨
       gpt.crc32 ≠ lecrc { gpt with crc32 := 0 } ∨
       gpt.headersize < 92 ∨ gpt.headersize > 2 ^ lss ∨
       gpt.partentry_size < 128 ∨ gpt.partentry_size % 128 ≠ 0 ∨
       (¬ ∃ k, gpt.partentry_size / 128 = 2 ^ k) ∨
       gpt.maxpart * gpt.partentry_size < 16384 ∨
       gpt.start > gpt.«end» := by
      refine Or.inr (Or.inr (Or.inr (Or.inr (Or.inr (Or.inr (Or.inr (Or.inr (Or.inl ?_))))))))
      simpa [grub_gpt_entries_size, GRUB_GPT_DEFAULT_ENTRIES_SIZE] using h6
    exact ⟨Iff.intro (fun _ => hC) (fun _ => ⟨_, rfl⟩),
      iff_of_false (by simp) (fun hn => hn hC)⟩
  · have hC : gpt.magic ≠ GRUB_GPT_HEADER_MAGIC ∨ gpt.version ≠ GRUB_GPT_HEADER_VERSION ∨
       gpt.crc32 ≠ lecrc { gpt with crc32 := 0 } ∨
       gpt.headersize < 92 ∨ gpt.headersize > 2 ^ lss ∨
       gpt.partentry_size < 128 ∨ gpt.partentry_size % 128 ≠ 0 ∨
       (¬ ∃ k, gpt.partentry_size / 128 = 2 ^ k) ∨
       gpt.maxpart * gpt.partentry_size < 16384 ∨
       gpt.start > gpt.«end» :=
      Or.inr (Or.inr (Or.inr (Or.inr (Or.inr (Or.inr (Or.inr (Or.inr (Or.inr h7))))))))
    exact ⟨Iff.intro (fun _ => hC) (fun _ => ⟨_, rfl⟩),
      iff_of_false (by simp) (fun hn => hn hC)⟩
  · have hnC : ¬ (gpt.magic ≠ GRUB_GPT_HEADER_MAGIC ∨ gpt.version ≠ GRUB_GPT_HEADER_VERSION ∨
       gpt.crc32 ≠ lecrc { gpt with crc32 := 0 } ∨
       gpt.headersize < 92 ∨ gpt.headersize > 2 ^ lss ∨
       gpt.partentry_size < 128 ∨ gpt.partentry_size % 128 ≠ 0 ∨
       (¬ ∃ k, gpt.partentry_size / 128 = 2 ^ k) ∨
       gpt.maxpart * gpt.partentry_size < 16384 ∨
       gpt.start > gpt.«end») := by
      push_neg at h4 h5
      rintro (h | h | h | h | h | h | h | h | h | h)
      · exact h1 h
      · exact h2 h
      · exact h3 (by simpa [grub_gpt_header_lecrc32] using h)
      · omega
      · omega
      · omega
      · omega
      · refine h (exists_pow_of_is_pow2 ?_ h5.2.2)
        exact (Nat.one_le_div_iff (by norm_num)).mpr h5.1
      · exact absurd h (by simpa [grub_gpt_entries_size, GRUB_GPT_DEFAULT_ENTRIES_SIZE] using h6)
      · exact h7 h
    exact ⟨iff_of_false (by simp) hnC, iff_of_true rfl hnC⟩

/-- Claim C3: for every handle with all four `_VALID` bits set,
`grub_gpt_write` issues the backup copy's writes before any write of the
primary copy, and if the backup's write fails it returns without touching
the primary; when the medium's total-sector count is known and the backup
header sector is at or beyond it, the backup is skipped and only the
primary is written.  For every handle in any other bitmask state, write
fails with `BAD_PART_TABLE` and writes nothing. -/
theorem claim_C3 (disk : Disk) (gpt : GptHandle) :
    (grub_gpt_both_valid gpt = false →
      grub_gpt_write disk gpt = (.badPartTable .invalidGptData, [])) ∧
    (grub_gpt_both_valid gpt = true →
     grub_gpt_disk_size_valid disk = true → gpt.backup.header_lba ≥ disk.total_sectors →
      grub_gpt_write disk gpt = grub_gpt_write_table disk gpt gpt.primary) ∧
    (grub_gpt_both_valid gpt = true →
     ¬ (grub_gpt_disk_size_valid disk = true ∧ gpt.backup.header_lba ≥ disk.total_sectors) →
      ((grub_gpt_write_table disk gpt gpt.backup).1 ≠ .none →
        grub_gpt_write disk gpt = grub_gpt_write_table disk gpt gpt.backup) ∧
      ((grub_gpt_write_table disk gpt gpt.backup).1 = .none →
        grub_gpt_write disk gpt =
          ((grub_gpt_write_table disk gpt gpt.primary).1,
           (grub_gpt_write_table disk gpt gpt.backup).2 ++
             (grub_gpt_write_table disk gpt gpt.primary).2))) := by
  refine ⟨?_, ?_, ?_⟩
  · intro h
    simp only [grub_gpt_write]
    rw [if_pos (by simp [h])]
  · intro hv hsv hge
    simp only [grub_gpt_write]
    rw [if_neg (by simp [hv]), if_pos ⟨hsv, hge⟩]
  · intro hv hnc
    constructor
    · intro hne
      simp only [grub_gpt_write]
      rw [if_neg (by simp [hv]), if_neg hnc]
    · intro hok
      simp only [grub_gpt_write]
      rw [if_neg (by simp [hv]), if_neg hnc]
      rcases hwt : grub_gpt_write_table disk gpt gpt.backup with ⟨e, evs⟩
      rw [hwt] at hok
      simp only at hok
      subst hok
      rfl

/-- Witness for C3: on the benign fixture medium the backup copy's two
writes are issued, succeed, and the primary copy's writes follow. -/
theorem claim_C3_witness :
    grub_gpt_write wdisk whandle =
      ((grub_gpt_write_table wdisk whandle whandle.primary).1,
       (grub_gpt_write_table wdisk whandle whandle.backup).2 ++
         (grub_gpt_write_table wdisk whandle whandle.primary).2) :=
  ((claim_C3 wdisk whandle).2.2 rfl (by decide)).2 (by decide)

/-- Counterexample to claim C4 as stated: on a handle whose regenerated
primary passes re-validation while the backup does not, `grub_gpt_update`
fails (returns a `BUG`) yet leaves `PRIMARY_HEADER_VALID` set — the claim
demands that no `_VALID` bit be set on any failure. -/
theorem claim_C4_counterexample :
    (grub_gpt_update lecrc0 ecrc0 uhandle).2 ≠ .none ∧
    (grub_gpt_update lecrc0 ecrc0 uhandle).1.status.primary_header_valid = true ∧
    (grub_gpt_update lecrc0 ecrc0 uhandle).1.status.primary_entries_valid = true := by
  refine ⟨by decide, by decide, by decide⟩

/-- Claim C4 (amended): `grub_gpt_update` first clears all four `_VALID`
bits; when the regenerated primary fails re-validation it returns a `BUG`
with no `_VALID` bit set; when the primary passes but the regenerated
backup fails re-validation it returns a `BUG` with exactly the primary
pair set and the backup pair clear; when both pass it succeeds with all
four set. -/
theorem claim_C4 (lecrc : GptHeader → Nat) (ecrc : List Nat → Nat) (gpt : GptHandle) :
    ((grub_gpt_update_prep lecrc ecrc gpt).status.primary_header_valid = false ∧
     (grub_gpt_update_prep lecrc ecrc gpt).status.primary_entries_valid = false ∧
     (grub_gpt_update_prep lecrc ecrc gpt).status.backup_header_valid = false ∧
     (grub_gpt_update_prep lecrc ecrc gpt).status.backup_entries_valid = false) ∧
    (grub_gpt_check_primary lecrc (grub_gpt_update_prep lecrc ecrc gpt) ≠ .none →
      (grub_gpt_update lecrc ecrc gpt).2 = .bug .generatedInvalidPrimary ∧
      (grub_gpt_update lecrc ecrc gpt).1.status.primary_header_valid = false ∧
      (grub_gpt_update lecrc ecrc gpt).1.status.primary_entries_valid = false ∧
      (grub_gpt_update lecrc ecrc gpt).1.status.backup_header_valid = false ∧
      (grub_gpt_update lecrc ecrc gpt).1.status.backup_entries_valid = false) ∧
    (grub_gpt_check_primary lecrc (grub_gpt_update_prep lecrc ecrc gpt) = .none →
     grub_gpt_check_backup lecrc { grub_gpt_update_prep lecrc ecrc gpt with
        status := { (grub_gpt_update_prep lecrc ecrc gpt).status with
          primary_header_valid := true, primary_entries_valid := true } } ≠ .none →
      (grub_gpt_update lecrc ecrc gpt).2 = .bug .generatedInvalidBackup ∧
      (grub_gpt_update lecrc ecrc gpt).1.status.primary_header_valid = true ∧
      (grub_gpt_update lecrc ecrc gpt).1.status.primary_entries_valid = true ∧
      (grub_gpt_update lecrc ecrc gpt).1.status.backup_header_valid = false ∧
      (grub_gpt_update lecrc ecrc gpt).1.status.backup_entries_valid = false) ∧
    (grub_gpt_check_primary lecrc (grub_gpt_update_prep lecrc ecrc gpt) = .none →
     grub_gpt_check_backup lecrc { grub_gpt_update_prep lecrc ecrc gpt with
        status := { (grub_gpt_update_prep lecrc ecrc gpt).status with
          primary_header_valid := true, primary_entries_valid := true } } = .none →
      (grub_gpt_update lecrc ecrc gpt).2 = .none ∧
      (grub_gpt_update lecrc ecrc gpt).1.status.primary_header_valid = true ∧
      (grub_gpt_update lecrc ecrc gpt).1.status.primary_entries_valid = true ∧
      (grub_gpt_update lecrc ecrc gpt).1.status.backup_header_valid = true ∧
      (grub_gpt_update lecrc ecrc gpt).1.status.backup_entries_valid = true) := by
  refine ⟨⟨rfl, rfl, rfl, rfl⟩, ?_, ?_, ?_⟩
  · intro hcp
    rcases hc : grub_gpt_check_primary lecrc (grub_gpt_update_prep lecrc ecrc gpt) with
      _ | m | m | m | _ | m | m | c
    · exact absurd hc hcp
    all_goals
      simp [grub_gpt_update, hc]
      try exact ⟨rfl, rfl, rfl, rfl⟩
  · intro hcp hcb
    rcases hc : grub_gpt_check_backup lecrc { grub_gpt_update_prep lecrc ecrc gpt with
        status := { (grub_gpt_update_prep lecrc ecrc gpt).status with
          primary_header_valid := true, primary_entries_valid := true } } with
      _ | m | m | m | _ | m | m | c
    · exact absurd hc hcb
    all_goals
      simp [grub_gpt_update, hcp, hc]
      try exact ⟨rfl, rfl, rfl, rfl⟩
      try exact ⟨rfl, rfl⟩
  · intro hcp hcb
    simp [grub_gpt_update, hcp, hcb]

/-- Witness for C4 at the concrete fixture: the primary re-validates, the
backup does not, and update ends in a `BUG` with exactly the primary pair
set. -/
theorem claim_C4_witness :
    (grub_gpt_update lecrc0 ecrc0 uhandle).2 = .bug .generatedInvalidBackup ∧
    (grub_gpt_update lecrc0 ecrc0 uhandle).1.status.primary_header_valid = true ∧
    (grub_gpt_update lecrc0 ecrc0 uhandle).1.status.primary_entries_valid = true ∧
    (grub_gpt_update lecrc0 ecrc0 uhandle).1.status.backup_header_valid = false ∧
    (grub_gpt_update lecrc0 ecrc0 uhandle).1.status.backup_entries_valid = false :=
  (claim_C4 lecrc0 ecrc0 uhandle).2.2.1 (by decide) (by decide)

/-- Claim C5: whenever the primary copy has validated and the backup header
also passes its individual checks but the two headers are not
mirror-consistent (equal `headersize`, swapped `header_lba`/`alternate_lba`,
equal `first_usable`, `last_usable`, `maxpart`, `partentry_size`,
`partentry_crc32` and `guid` — exactly the fields `grub_gpt_headers_equal`
compares), the backup check fails with `BAD_PART_TABLE` backup GPT out of
sync and the primary remains the preferred copy; likewise, when primary
entries are already valid, the backup entry array must be byte-for-byte
equal to the owned buffer, and any mismatch fails with backup GPT out of
sync. -/
theorem claim_C5 (lecrc : GptHeader → Nat) (ecrc : List Nat → Nat) (disk : Disk)
    (gpt : GptHandle) (sector : Nat) (bh : GptHeader) (ents : List Nat) (es : Nat) :
    (grub_gpt_headers_equal gpt = true ↔
      (gpt.primary.headersize = gpt.backup.headersize ∧
       gpt.primary.header_lba = gpt.backup.alternate_lba ∧
       gpt.primary.alternate_lba = gpt.backup.header_lba ∧
       gpt.primary.start = gpt.backup.start ∧
       gpt.primary.«end» = gpt.backup.«end» ∧
       gpt.primary.maxpart = gpt.backup.maxpart ∧
       gpt.primary.partentry_size = gpt.backup.partentry_size ∧
       gpt.primary.partentry_crc32 = gpt.backup.partentry_crc32 ∧
       gpt.primary.guid = gpt.backup.guid)) ∧
    (gpt.status.primary_header_valid = true →
     grub_gpt_header_check lecrc gpt.backup gpt.log_sector_size = .none →
     gpt.backup.alternate_lba = 1 →
     ¬ (gpt.backup.partitions ≤ gpt.backup.«end» ∨
        u64add gpt.backup.partitions
          (grub_gpt_entries_sectors gpt.backup gpt.log_sector_size) >
          gpt.backup.header_lba) →
     ¬ gpt.backup.header_lba ≤ gpt.backup.«end» →
     grub_gpt_headers_equal gpt = false →
      grub_gpt_check_backup lecrc gpt = .badPartTable .backupOutOfSync ∧
      grub_gpt_get_header gpt = .ok gpt.primary) ∧
    (gpt.status.primary_entries_valid = true →
     disk.readHeaderAt (grub_gpt_sector_to_addr gpt sector) = .ok bh →
     grub_gpt_check_backup lecrc { gpt with backup := bh } = .none →
     bh.header_lba = sector →
     grub_gpt_read_entries ecrc disk
       { gpt with
         backup := bh
         status := { gpt.status with backup_header_valid := true } } bh = .ok (ents, es) →
     es ≠ gpt.entries_size ∨ ents ≠ gpt.entries →
      (grub_gpt_read_backup_at lecrc ecrc disk gpt sector).2 =
        .badPartTable .backupOutOfSync) := by
  refine ⟨?_, ?_, ?_⟩
  · simp [grub_gpt_headers_equal, and_assoc]
  · intro hph hhc halt hloc hblba heq
    constructor
    · simp only [grub_gpt_check_backup]
      rw [hhc]
      rw [if_neg (by simp [halt]), if_neg hloc, if_neg hblba,
          if_pos ⟨hph, by simp [heq]⟩]
    · simp [grub_gpt_get_header, hph]
  · intro hpe hre hcb hlba hent hmis
    simp only [grub_gpt_read_backup_at]
    rw [hre]
    simp only [hcb]
    rw [if_neg (by simp [hlba])]
    simp only [hent]
    rw [if_pos hpe, if_pos hmis]

/-- Witness for C5: a desynchronized backup header is rejected out of sync
with the primary still preferred, and a backup entry array differing from
the owned buffer is rejected out of sync. -/
theorem claim_C5_witness :
    (grub_gpt_check_backup lecrc0 desyncHandle = .badPartTable .backupOutOfSync ∧
     grub_gpt_get_header desyncHandle = .ok desyncHandle.primary) ∧
    (grub_gpt_read_backup_at lecrc0 ecrc0 bdisk pehandle 2047).2 =
      .badPartTable .backupOutOfSync :=
  ⟨(claim_C5 lecrc0 ecrc0 wdisk desyncHandle 0 goodBackup [] 0).2.1
      rfl (by decide) rfl (by decide) (by decide) (by decide),
   (claim_C5 lecrc0 ecrc0 bdisk pehandle 2047 goodBackup (List.replicate 16384 0) 16384).2.2
      rfl rfl (by decide) rfl rfl (by decide)⟩

/-- Claim C6: for every medium (whose device-level failures carry real
error codes), if reading the primary copy fails, `grub_gpt_read` preserves
the primary's error across the backup attempt so that when both copies
fail the primary's diagnostic is the one reported; if either copy ends
fully valid, any error from the other side is cleared and the reader
returns a live handle; if neither is valid, the reader surfaces the
primary's error and frees the handle (returns null). -/
theorem claim_C6 (lecrc : GptHeader → Nat) (ecrc : List Nat → Nat) (disk : Disk)
    (m : Mbr) (hm : disk.readMbr = .ok m)
    (hwf1 : ∀ a, disk.readHeaderAt a ≠ .error .none)
    (hwf2 : ∀ a n, disk.readBytes a n ≠ .error .none) :
    grub_gpt_read lecrc ecrc disk =
      (let pr := grub_gpt_read_primary lecrc ecrc disk (grub_gpt_read_start m)
       let br := grub_gpt_read_backup lecrc ecrc disk pr.1
       if grub_gpt_primary_valid br.1 ∨ grub_gpt_backup_valid br.1 then
         (some br.1, GrubErr.none)
       else (none, pr.2)) := by
  unfold grub_gpt_read
  rw [hm]
  dsimp only []
  by_cases hp : (grub_gpt_read_primary lecrc ecrc disk (grub_gpt_read_start m)).2 = .none
  · have hv : grub_gpt_primary_valid (grub_gpt_read_backup lecrc ecrc disk
        (grub_gpt_read_primary lecrc ecrc disk (grub_gpt_read_start m)).1).1 = true := by
      have hpre := read_backup_preserves_primary lecrc ecrc disk
        (grub_gpt_read_primary lecrc ecrc disk (grub_gpt_read_start m)).1
      have hpv := read_primary_valid_of_ok lecrc ecrc disk (grub_gpt_read_start m)
        hwf1 hwf2 hp
      unfold grub_gpt_primary_valid at hpv ⊢
      rw [hpre.1, hpre.2]
      exact hpv
    rw [if_neg (show ¬ ((grub_gpt_read_primary lecrc ecrc disk
      (grub_gpt_read_start m)).2 ≠ GrubErr.none) from not_not_intro hp)]
    rw [if_pos (Or.inl hv), if_pos (Or.inl hv)]
  · rw [if_pos hp]

/-- Witness for C6 on a medium where every GPT read fails with an I/O
error: neither copy validates, the handle is freed, and the reported
error is the primary's (the I/O failure at sector 1), not the backup's. -/
theorem claim_C6_witness :
    grub_gpt_read lecrc0 ecrc0
      { wdisk with readMbr := .ok { signature := 0xAA55, entry_types := [0xEE, 0, 0, 0] } } =
      (none, (grub_gpt_read_primary lecrc0 ecrc0
        { wdisk with readMbr := .ok { signature := 0xAA55, entry_types := [0xEE, 0, 0, 0] } }
        (grub_gpt_read_start { signature := 0xAA55, entry_types := [0xEE, 0, 0, 0] })).2) := by
  rw [claim_C6 lecrc0 ecrc0 _ { signature := 0xAA55, entry_types := [0xEE, 0, 0, 0] } rfl
    (fun a => by simp [wdisk]) (fun a n => by simp [wdisk])]
  decide

/-- Counterexample to claim C7 as stated: on a medium of `2^60` sectors of
`2^13` bytes the rescaled 512-byte-block count is `2^64 > 2^51`, so the
claim calls the size unknown and demands `OUT_OF_RANGE`; but the code's
64-bit shift wraps to 0, the size is treated as known, and with an invalid
primary the reader proceeds to `total_sectors − 1` and fails with a
`BAD_PART_TABLE` signature error instead. -/
theorem claim_C7_counterexample :
    cdisk.total_sectors * 2 ^ (cdisk.log_sector_size - 9) > 2 ^ 51 ∧
    c7handle.status.primary_header_valid = false ∧
    (grub_gpt_read_backup lecrc0 ecrc0 cdisk c7handle).2 =
      .badPartTable .invalidGptSignature := by
  refine ⟨by decide, by decide, by decide⟩

/-- Claim C7 (amended): when the reader locates the backup copy: if the
primary validated it uses `primary.alternate_lba`, failing `OUT_OF_RANGE`
when the medium size is known and `alternate_lba ≥ total_sectors`; if the
primary did not validate and the medium size is known it uses
`total_sectors − 1`; if the primary did not validate and the size is
unknown it fails `OUT_OF_RANGE` — where known means the sector count
shifted left by `log_sector_size − 9` and truncated to 64 bits (not the
exact rescaled count) does not exceed `2^51`. -/
theorem claim_C7 (lecrc : GptHeader → Nat) (ecrc : List Nat → Nat)
    (disk : Disk) (gpt : GptHandle) :
    (grub_gpt_disk_size_valid disk = true ↔
      (disk.total_sectors <<< (disk.log_sector_size - 9)) % U64 ≤ 2 ^ 51) ∧
    (gpt.status.primary_header_valid = true →
     grub_gpt_disk_size_valid disk = true →
     gpt.primary.alternate_lba ≥ disk.total_sectors →
      grub_gpt_read_backup lecrc ecrc disk gpt =
        (gpt, .outOfRange .backupBeyondDisk)) ∧
    (gpt.status.primary_header_valid = true →
     ¬ (grub_gpt_disk_size_valid disk = true ∧
        gpt.primary.alternate_lba ≥ disk.total_sectors) →
      grub_gpt_read_backup lecrc ecrc disk gpt =
        grub_gpt_read_backup_at lecrc ecrc disk gpt gpt.primary.alternate_lba) ∧
    (gpt.status.primary_header_valid = false →
     grub_gpt_disk_size_valid disk = false →
      grub_gpt_read_backup lecrc ecrc disk gpt =
        (gpt, .outOfRange .diskSizeUnknown)) ∧
    (gpt.status.primary_header_valid = false →
     grub_gpt_disk_size_valid disk = true →
     1 ≤ disk.total_sectors → disk.total_sectors < U64 →
      grub_gpt_read_backup lecrc ecrc disk gpt =
        grub_gpt_read_backup_at lecrc ecrc disk gpt (disk.total_sectors - 1)) := by
  have hsub : 1 ≤ disk.total_sectors → disk.total_sectors < U64 →
      u64sub disk.total_sectors 1 = disk.total_sectors - 1 := by
    intro h1 h2
    unfold u64sub
    rw [Nat.mod_eq_of_lt h2, Nat.mod_eq_of_lt (show 1 < U64 by norm_num [U64])]
    have heq : disk.total_sectors + U64 - 1 = U64 + (disk.total_sectors - 1) := by omega
    rw [heq, Nat.add_mod_left, Nat.mod_eq_of_lt (by omega)]
  refine ⟨?_, ?_, ?_, ?_, ?_⟩
  · simp [grub_gpt_disk_size_valid]
  · intro hp hsv hge
    simp only [grub_gpt_read_backup, grub_gpt_read_backup_sector]
    rw [if_pos hp, if_pos ⟨hsv, hge⟩]
  · intro hp hnc
    simp only [grub_gpt_read_backup, grub_gpt_read_backup_sector]
    rw [if_pos hp, if_neg hnc]
  · intro hp hsv
    simp only [grub_gpt_read_backup, grub_gpt_read_backup_sector]
    rw [if_neg (show ¬ (gpt.status.primary_header_valid = true) by simp [hp]),
        if_neg (show ¬ (grub_gpt_disk_size_valid disk = true) by simp [hsv])]
  · intro hp hsv h1 h2
    simp only [grub_gpt_read_backup, grub_gpt_read_backup_sector]
    rw [if_neg (show ¬ (gpt.status.primary_header_valid = true) by simp [hp]),
        if_pos hsv, hsub h1 h2]

/-- Witness for C7: a validated primary whose `alternate_lba` lies beyond a
known medium end fails `OUT_OF_RANGE`, and an invalid primary on a known
medium reads the backup from `total_sectors − 1`. -/
theorem claim_C7_witness :
    grub_gpt_read_backup lecrc0 ecrc0 { wdisk with total_sectors := 1024 } whandle =
      (whandle, .outOfRange .backupBeyondDisk) ∧
    grub_gpt_read_backup lecrc0 ecrc0 wdisk pehandle =
      grub_gpt_read_backup_at lecrc0 ecrc0 wdisk pehandle (wdisk.total_sectors - 1) :=
  ⟨(claim_C7 lecrc0 ecrc0 { wdisk with total_sectors := 1024 } whandle).2.1
      rfl (by decide) (by decide),
   (claim_C7 lecrc0 ecrc0 wdisk pehandle).2.2.2.2
      rfl (by decide) (by decide) (by decide)⟩

/-- Claim C8: for every validated header (in particular
`partentry_size ≥ 128`), `grub_gpt_read_entries` computes
`entries_size = maxpart × partentry_size` with the explicit
inverse-division overflow check `product / size == maxpart` (the product
of the two 32-bit fields is stored truncated, so the check fires exactly
when the true product reaches `2^32`), failing `OUT_OF_MEMORY` on
overflow; it re-asserts `entries_size ≥ 16384`; otherwise it reads exactly
`entries_size` bytes from `partitions_lba` and fails `BAD_PART_TABLE` when
the buffer's CRC-32 differs from the header's `partentry_crc32`. -/
theorem claim_C8 (ecrc : List Nat → Nat) (disk : Disk) (gpt : GptHandle)
    (header : GptHeader) (h128 : 128 ≤ header.partentry_size) :
    (U32 ≤ header.maxpart * header.partentry_size →
      grub_gpt_read_entries ecrc disk gpt header = .error .outOfMemory) ∧
    (header.maxpart * header.partentry_size < GRUB_GPT_DEFAULT_ENTRIES_SIZE →
      grub_gpt_read_entries ecrc disk gpt header = .error (.bug .invalidEntriesTableSize)) ∧
    (GRUB_GPT_DEFAULT_ENTRIES_SIZE ≤ header.maxpart * header.partentry_size →
     header.maxpart * header.partentry_size < U32 →
      grub_gpt_read_entries ecrc disk gpt header =
        match disk.readBytes (grub_gpt_sector_to_addr gpt header.partitions)
            (header.maxpart * header.partentry_size) with
        | .error e => .error e
        | .ok entries =>
          if ecrc entries ≠ header.partentry_crc32 then
            .error (.badPartTable .invalidEntryCrc32)
          else .ok (entries, header.maxpart * header.partentry_size)) := by
  have hU32 : 0 < U32 := by norm_num [U32]
  have hkey : header.maxpart * header.partentry_size % U32 / header.partentry_size =
      header.maxpart ↔ header.maxpart * header.partentry_size < U32 := by
    constructor
    · intro h
      by_contra hno
      push_neg at hno
      have hlt : header.maxpart * header.partentry_size % U32 / header.partentry_size <
          header.maxpart := by
        rw [Nat.div_lt_iff_lt_mul (by omega)]
        exact lt_of_lt_of_le (Nat.mod_lt _ hU32) hno
      omega
    · intro h
      rw [Nat.mod_eq_of_lt h, Nat.mul_div_cancel _ (by omega)]
  refine ⟨?_, ?_, ?_⟩
  · intro hov
    have hne : header.maxpart * header.partentry_size % U32 / header.partentry_size ≠
        header.maxpart := fun he => absurd (hkey.mp he) (by omega)
    simp only [grub_gpt_read_entries]
    rw [if_pos ⟨by omega, hne⟩]
  · intro hlt
    have hsmall : header.maxpart * header.partentry_size < U32 := by
      have : GRUB_GPT_DEFAULT_ENTRIES_SIZE < U32 := by
        norm_num [GRUB_GPT_DEFAULT_ENTRIES_SIZE, U32]
      omega
    simp only [grub_gpt_read_entries]
    rw [if_neg (fun hc => hc.2 (hkey.mpr hsmall)),
        Nat.mod_eq_of_lt hsmall, if_pos hlt]
  · intro hmin hsmall
    simp only [grub_gpt_read_entries]
    rw [if_neg (fun hc => hc.2 (hkey.mpr hsmall)), Nat.mod_eq_of_lt hsmall,
        if_neg (by omega)]

/-- Witness for C8: at a header with `partentry_size = 128` and
`maxpart = 2^26` the product overflows 32 bits and the read fails
`OUT_OF_MEMORY`. -/
theorem claim_C8_witness :
    grub_gpt_read_entries (fun _ => 0)
      { log_sector_size := 9, total_sectors := 4096, readMbr := .error (.io 0),
        readHeaderAt := fun _ => .error (.io 0), readBytes := fun _ _ => .error (.io 0),
        writeErr := fun _ => none }
      zeroHandle { zeroHandle.primary with maxpart := 2 ^ 26, partentry_size := 128 } =
      .error .outOfMemory :=
  (claim_C8 _ _ _ _ (by norm_num)).1 (by norm_num [U32])

/-- Counterexample to claim C9 as stated: with a 4096-byte sector size
(`log_sector_size = 12`) and `partitions_lba = 1 < 2`, the entry-array
write is not refused — the 512-byte-unit address is `1 << 3 = 8 ≥ 2`, so
both writes are issued and the writer returns success, where the claim
demands a `BUG` refusal with nothing written. -/
theorem claim_C9_counterexample :
    (1 : Nat) < 2 ∧
    grub_gpt_write_table
      { wdisk with log_sector_size := 12 }
      { whandle with log_sector_size := 12 }
      { goodPrimary with partitions := 1 } =
      (.none, [.header 8 { goodPrimary with partitions := 1 },
               .entries 8 [] 0]) := by
  constructor
  · decide
  · rfl

/-- Claim C9 (amended): when writing either copy, the writer refuses any
header whose `headersize` differs from the native struct size with
`NOT_IMPLEMENTED_YET`, and refuses a header whose `header_lba` is 0 with
`BUG`; in those two cases nothing is written for that copy.  It refuses
the entry array with `BUG` when the array's address in 512-byte units —
`partitions_lba << (log_sector_size − 9)`, truncated to 64 bits — is
below 2 (not when `partitions_lba < 2`), and that refusal is issued only
after the copy's header write. -/
theorem claim_C9 (disk : Disk) (gpt : GptHandle) (header : GptHeader) :
    (header.headersize ≠ sizeof_gpt_header →
      grub_gpt_write_table disk gpt header = (.notImplementedYet .headerSizeMismatch, [])) ∧
    (header.headersize = sizeof_gpt_header → header.header_lba = 0 →
      grub_gpt_write_table disk gpt header = (.bug .refusingHeaderAddr0, [])) ∧
    (header.headersize = sizeof_gpt_header →
     grub_gpt_sector_to_addr gpt header.header_lba ≠ 0 →
     disk.writeErr (grub_gpt_sector_to_addr gpt header.header_lba) = none →
     grub_gpt_sector_to_addr gpt header.partitions < 2 →
      grub_gpt_write_table disk gpt header =
        (.bug .refusingEntriesAddr,
         [.header (grub_gpt_sector_to_addr gpt header.header_lba) header])) := by
  refine ⟨?_, ?_, ?_⟩
  · intro hs
    simp only [grub_gpt_write_table]
    rw [if_pos hs]
  · intro hs hlba
    have haddr : grub_gpt_sector_to_addr gpt header.header_lba = 0 := by
      simp [grub_gpt_sector_to_addr, hlba]
    simp only [grub_gpt_write_table]
    rw [if_neg (by simp [hs]), haddr, if_pos rfl]
  · intro hs haddr hw hlow
    simp only [grub_gpt_write_table]
    rw [if_neg (by simp [hs]), if_neg haddr, hw, if_pos hlow]

/-- Witness for C9 at concrete refusals: a non-native header size, a zero
`header_lba`, and an entry-array address below 2 reached after the header
write. -/
theorem claim_C9_witness :
    grub_gpt_write_table wdisk whandle { goodPrimary with headersize := 93 } =
      (.notImplementedYet .headerSizeMismatch, []) ∧
    grub_gpt_write_table wdisk whandle { goodPrimary with header_lba := 0 } =
      (.bug .refusingHeaderAddr0, []) ∧
    grub_gpt_write_table wdisk whandle { goodPrimary with partitions := 0 } =
      (.bug .refusingEntriesAddr,
       [.header (grub_gpt_sector_to_addr whandle goodPrimary.header_lba)
         { goodPrimary with partitions := 0 }]) :=
  ⟨(claim_C9 wdisk whandle _).1 (by decide),
   (claim_C9 wdisk whandle _).2.1 (by decide) rfl,
   (claim_C9 wdisk whandle _).2.2 (by decide) (by decide) rfl (by decide)⟩

/-- Claim C10: for every handle in which neither `PRIMARY_HEADER_VALID` nor
`BACKUP_HEADER_VALID` is set, `grub_gpt_get_partentry` returns `NULL` for
every index `n` and raises a `BUG` error (No valid GPT header), and the
GUID rendering of `grub_gpt_disk_uuid` fails the same way; when
`PRIMARY_HEADER_VALID` is set, the primary header is always the one
consulted, even if the backup is also valid. -/
theorem claim_C10 (gpt : GptHandle) (n : Nat) :
    (gpt.status.primary_header_valid = false → gpt.status.backup_header_valid = false →
      grub_gpt_get_header gpt = .error (.bug .noValidGptHeader) ∧
      grub_gpt_get_partentry gpt n = (none, .bug .noValidGptHeader) ∧
      grub_gpt_disk_uuid_of gpt = .error (.bug .noValidGptHeader)) ∧
    (gpt.status.primary_header_valid = true →
      grub_gpt_get_header gpt = .ok gpt.primary) := by
  constructor
  · intro hp hb
    simp [grub_gpt_get_header, grub_gpt_get_partentry, grub_gpt_disk_uuid_of, hp, hb]
  · intro hp
    simp [grub_gpt_get_header, hp]

/-- Witness for C10 at a concrete handle with neither header bit set
(the zeroed handle) and at one with both header bits set. -/
theorem claim_C10_witness :
    (grub_gpt_get_header zeroHandle = .error (.bug .noValidGptHeader) ∧
     grub_gpt_get_partentry zeroHandle 0 = (none, .bug .noValidGptHeader) ∧
     grub_gpt_disk_uuid_of zeroHandle = .error (.bug .noValidGptHeader)) ∧
    grub_gpt_get_header { zeroHandle with status := { zeroHandle.status with
      primary_header_valid := true, backup_header_valid := true } } =
      .ok zeroHandle.primary :=
  ⟨(claim_C10 zeroHandle 0).1 rfl rfl,
   (claim_C10 { zeroHandle with status := { zeroHandle.status with
      primary_header_valid := true, backup_header_valid := true } } 0).2 rfl⟩

end Gpt
